import Mathlib

/-!
Shallow embedding of the layer-cache and build-progress core of
`src/ansible_bender/api.py` (class `Application`).

The repository ships only `api.py`; the collaborators it imports
(`Database`, the `Build` entity, the builder backends and the Ansible
runner) are not part of the source tree.  Those are modelled from the
specification (sections 3, 4.1-4.3 and 6 of spec.md), each such
definition carrying a doc comment starting `Modelled from the spec:`.
Everything in `Application` itself is translated directly from the
Python source.

External side effects (calls into the container-engine Builder) are
recorded as an explicit event trace; results of external calls are
passed in as parameters or as an environment of `Except`-valued fields,
so that every function stays pure and executable.
-/

/-- One layer of a build, as stored in the build's layer chain
(spec section 3, "Layer"): content fingerprint (`none` for the base
layer), the resulting layer id (an `Option` because a cache miss on a
skipped task records an absent id), the id of the layer it was produced
from (`none` only for the base layer) and the `cached` reuse flag. -/
structure Layer where
  content : Option String
  layer_id : Option String
  base_image_id : Option String
  cached : Bool
  deriving Repr, DecidableEq

/-- Build lifecycle states (spec section 3, "Build State"). -/
inductive BuildState where
  | scheduled
  | inProgress
  | done
  | failed
  deriving Repr, DecidableEq

/-- Modelled from the spec: the `Build` entity (spec section 3) with its
identity, immutable configuration fields, mutable lifecycle fields and
the append-only layer chain.  Timestamps are abstract naturals. -/
structure Build where
  build_id : String
  base_image : String
  target_image : String
  builder_name : String
  cache_tasks : Bool
  debug : Bool
  verbose : Bool
  state : BuildState
  build_start_time : Option Nat
  build_finish_time : Option Nat
  log_lines : List String
  layers : List Layer
  deriving Repr, DecidableEq

/-- Modelled from the spec: `Build.record_layer` appends a `Layer`
record to the build's chain (spec section 4.3, `recordLayer`; the chain
is append-only and layers are never removed). -/
def Build.record_layer (b : Build) (content : Option String)
    (layer_id : Option String) (base_image_id : Option String)
    (cached : Bool) : Build :=
  { b with layers := b.layers ++ [⟨content, layer_id, base_image_id, cached⟩] }

/-- Modelled from the spec: `Build.get_top_layer_id` returns the id of
the last layer in the chain (spec section 4.3, `topLayerId`; the empty
chain, for which the spec prescribes an `EmptyChain` failure, is mapped
to `none`). -/
def Build.get_top_layer_id (b : Build) : Option String :=
  match b.layers.getLast? with
  | some l => l.layer_id
  | none => none

/-- Modelled from the spec: the Persistent Store (spec sections 4.1 and
6): build records keyed by build id, and a separate cache index keyed by
the pair (content fingerprint, base layer id) mapping to a layer id. -/
structure Database where
  builds : List (String × Build)
  layer_cache : List ((String × Option String) × String)
  deriving Repr, DecidableEq

/-- Modelled from the spec: `Database.get_build` fetches a build record
by id (spec section 4.1, `get(key)`); `none` models `NotFound`. -/
def Database.get_build (db : Database) (build_id : String) : Option Build :=
  (db.builds.find? (fun p => p.1 == build_id)).map (fun p => p.2)

/-- Modelled from the spec: `Database.record_build` persists a build
record under its id (spec section 4.1, `put(key, record)`); the newest
record for an id shadows older ones. -/
def Database.record_build (db : Database) (b : Build) : Database :=
  { db with builds := (b.build_id, b) :: db.builds }

/-- Modelled from the spec: `Database.get_cached_layer` is the layer
cache lookup (spec section 4.2, `lookup(contentFingerprint, baseLayerId)`):
deterministic exact match on both key fields, `none` when absent. -/
def Database.get_cached_layer (db : Database) (content : String)
    (base_image_id : Option String) : Option String :=
  (db.layer_cache.find?
      (fun e => e.1.1 == content && e.1.2 == base_image_id)).map (fun e => e.2)

/-- Modelled from the spec: `Database.save_layer` is the layer cache
insert (spec section 4.2, `insert`): inserting a fresh key adds one
entry, re-inserting the same key with the same value is a no-op, and
inserting the same key with a different value is a reported logic
error, never a silent overwrite. -/
def Database.save_layer (db : Database) (layer_id : String)
    (base_image_id : Option String) (content : String) :
    Except String Database :=
  match db.get_cached_layer content base_image_id with
  | none =>
      Except.ok { db with
        layer_cache := ((content, base_image_id), layer_id) :: db.layer_cache }
  | some existing =>
      if existing == layer_id then Except.ok db
      else Except.error "conflicting layer cache insert"

/-- Modelled from the spec: `Database.record_build` invoked with a
`build_state` argument sets the state on the record before persisting it
(used at `api.py` line 71 for `IN_PROGRESS`). -/
def Database.record_build_state (db : Database) (b : Build)
    (st : BuildState) : Database × Build :=
  let b2 := { b with state := st }
  (db.record_build b2, b2)

/-- Modelled from the spec: `Database.record_build` invoked with
`build=None`, a `build_id`, a `build_state` and `set_finish_time=True`
(as at `api.py` lines 83 and 94) re-fetches the record by id, sets the
state and stamps the finish timestamp, persists it and returns it. -/
def Database.record_build_fetch (db : Database) (build_id : String)
    (st : BuildState) (finish_time : Nat) : Option (Database × Build) :=
  match db.get_build build_id with
  | none => none
  | some b =>
      let b2 := { b with state := st, build_finish_time := some finish_time }
      some (db.record_build b2, b2)

/-- External Builder calls made by `Application.build` and the callback
protocol, recorded as an explicit trace of events. -/
inductive Event where
  | getImageId (ref : String)
  | isBaseImagePresent
  | pull
  | findPythonInterpreter
  | createContainer (volumes : List String)
  | swapWorkingContainer
  | runnerBuild
  | commit (image_name : String)
  | clean
  deriving Repr, DecidableEq

/-- The `Application` object's own fields that the core logic reads
(`api.py` lines 28-29). -/
structure Application where
  debug : Bool
  verbose : Bool
  deriving Repr, DecidableEq

/-- Shallow embedding of `Application.get_layer` (`api.py` lines
156-165): delegate to the cache lookup. -/
def Application.get_layer (db : Database) (content : String)
    (base_image_id : Option String) : Option String :=
  db.get_cached_layer content base_image_id

/-- Shallow embedding of `Application.maybe_load_from_cache` (`api.py`
lines 143-154).  Returns `none` when the build id is unknown; otherwise
`some (layer_id?, events)` where `layer_id?` is the value the Python
function returns (`None` mapping to `none`) and `events` are the
external Builder calls made. -/
def Application.maybe_load_from_cache (db : Database) (content : String)
    (build_id : String) : Option (Option String × List Event) :=
  match db.get_build build_id with
  | none => none
  | some build =>
      if build.cache_tasks = false then some (none, [])
      else
        let base_image_id := build.get_top_layer_id
        match Application.get_layer db content base_image_id with
        | some layer_id => some (some layer_id, [Event.swapWorkingContainer])
        | none => some (none, [])

/-- Shallow embedding of `Application.record_progress` (`api.py` lines
167-187).  When `build_id` is present the build is re-fetched from the
database, otherwise the passed `build` is used; returns the updated
database, the persisted build and the base layer id the Python function
returns, or `none` when a given `build_id` is unknown. -/
def Application.record_progress (db : Database) (build : Build)
    (content : String) (layer_id : Option String)
    (build_id : Option String) : Option (Database × Build × Option String) :=
  let fetched := match build_id with
    | some bid => db.get_build bid
    | none => some build
  match fetched with
  | none => none
  | some b =>
      let base_image_id := b.get_top_layer_id
      let resolved := match layer_id with
        | none => (Application.get_layer db content base_image_id, true)
        | some l => (some l, false)
      let b2 := b.record_layer (some content) resolved.1 base_image_id resolved.2
      let db2 := db.record_build b2
      some (db2, b2, base_image_id)

/-- Shallow embedding of `Application.cache_task_result` (`api.py` lines
189-203).  `timestamp` stands for `datetime.datetime.now().strftime(...)`
and `commit_ret` for the layer id the external Builder's `commit`
returns.  The result carries the updated database, the Python return
value (`none` for Python's `None`) and the Builder events; the error
case is the reported logic error of a conflicting cache insert. -/
def Application.cache_task_result (db : Database) (content : String)
    (build_id : String) (timestamp : String) (commit_ret : String) :
    Except String (Database × Option String × List Event) :=
  match db.get_build build_id with
  | none => Except.error "build not found"
  | some build =>
      if build.cache_tasks = false then Except.ok (db, none, [])
      else
        let image_name := (build.target_image ++ "-" ++ timestamp).toLower
        let layer_id := commit_ret
        match Application.record_progress db build content (some layer_id) none with
        | none => Except.error "build not found"
        | some (db2, _, base_image_id) =>
            match db2.save_layer layer_id base_image_id content with
            | Except.error e => Except.error e
            | Except.ok db3 =>
                Except.ok (db3, some image_name, [Event.commit image_name])

/-- Results of the external Builder calls made during
`Application.build`, supplied as an environment: each field is the
outcome of one collaborator call (spec section 6, "Builder"), an
`Except` because any external call may raise.  `clean` is assumed not
to raise (it is the `finally` action). -/
structure BuilderEnv where
  get_image_id : String → Except String String
  is_base_image_present : Except String Bool
  pull : Except String Unit
  find_python_interpreter : Except String String
  create : List String → Except String Unit
  commit : String → Except String String

/-- Failure outcomes of `Application.build`: the `RuntimeError` raised
for a missing playbook file (`api.py` line 56, the spec's
`ResourceNotFound`), a propagated external Builder failure, and the
re-raised `AbBuildUnsuccesful` carrying the runner's partial output
(`api.py` line 92). -/
inductive BuildError where
  | resourceNotFound (msg : String)
  | builderError (msg : String)
  | taskFailure (output : String)
  deriving Repr, DecidableEq

/-- Shallow embedding of `Application.build` (`api.py` lines 47-101).
`playbook_exists` is the result of `os.path.isfile(playbook_path)`;
`runner_result` is the outcome of the external Ansible runner
(`a_runner.build`), `Except.error` carrying `ex.output` of the raised
`AbBuildUnsuccesful`; `start_time` and `finish_time` are the values of
`datetime.datetime.now()` at the two points it is read.  Returns the
trace of external calls, the final database and the overall outcome. -/
def Application.build (app : Application) (playbook_path : String)
    (playbook_exists : Bool) (db : Database) (build : Build)
    (build_volumes : List String) (env : BuilderEnv)
    (runner_result : Except String (List String))
    (start_time finish_time : Nat) :
    List Event × Database × Except BuildError Unit :=
  if playbook_exists = false then
    ([], db,
      Except.error (BuildError.resourceNotFound
        ("No such file or directory: " ++ playbook_path)))
  else
    let build := { build with debug := app.debug, verbose := app.verbose }
    let db := db.record_build build
    match env.get_image_id build.base_image with
    | Except.error e =>
        ([Event.getImageId build.base_image], db,
          Except.error (BuildError.builderError e))
    | Except.ok base_image_id =>
    let tr := [Event.getImageId build.base_image]
    let build := build.record_layer none (some base_image_id) none true
    let build := { build with build_start_time := some start_time }
    let dbb := db.record_build_state build BuildState.inProgress
    let db := dbb.1
    let build := dbb.2
    match env.is_base_image_present with
    | Except.error e =>
        (tr ++ [Event.isBaseImagePresent], db,
          Except.error (BuildError.builderError e))
    | Except.ok present =>
    let tr := tr ++ [Event.isBaseImagePresent]
    let pullStep : List Event × Except String Unit :=
      if present then (tr, Except.ok ()) else (tr ++ [Event.pull], env.pull)
    match pullStep.2 with
    | Except.error e =>
        (pullStep.1, db, Except.error (BuildError.builderError e))
    | Except.ok _ =>
    let tr := pullStep.1
    match env.find_python_interpreter with
    | Except.error e =>
        (tr ++ [Event.findPythonInterpreter], db,
          Except.error (BuildError.builderError e))
    | Except.ok _py_intrprtr =>
    let tr := tr ++ [Event.findPythonInterpreter]
    match env.create build_volumes with
    | Except.error e =>
        (tr ++ [Event.createContainer build_volumes], db,
          Except.error (BuildError.builderError e))
    | Except.ok _ =>
    let tr := tr ++ [Event.createContainer build_volumes]
    match runner_result with
    | Except.error ex_output =>
        let tr := tr ++ [Event.runnerBuild]
        match db.record_build_fetch build.build_id BuildState.failed finish_time with
        | none =>
            (tr ++ [Event.clean], db,
              Except.error (BuildError.builderError "build record not found"))
        | some (db, b) =>
            let b := { b with log_lines := ex_output.splitOn "\n" }
            let db := db.record_build b
            let image_name := build.target_image ++ "-failed"
            match env.commit image_name with
            | Except.error e =>
                (tr ++ [Event.commit image_name, Event.clean], db,
                  Except.error (BuildError.builderError e))
            | Except.ok _ =>
                (tr ++ [Event.commit image_name, Event.clean], db,
                  Except.error (BuildError.taskFailure ex_output))
    | Except.ok output =>
        let tr := tr ++ [Event.runnerBuild]
        match db.record_build_fetch build.build_id BuildState.done finish_time with
        | none =>
            (tr ++ [Event.clean], db,
              Except.error (BuildError.builderError "build record not found"))
        | some (db, b) =>
            let b := { b with log_lines := output }
            let db := db.record_build b
            match env.commit build.target_image with
            | Except.error e =>
                (tr ++ [Event.commit build.target_image, Event.clean], db,
                  Except.error (BuildError.builderError e))
            | Except.ok _ =>
                (tr ++ [Event.commit build.target_image, Event.clean], db,
                  Except.ok ())

/-! Concrete sample data used by the witness theorems. -/

/-- A base layer as recorded at `api.py` line 66. -/
def sampleBaseLayer : Layer := ⟨none, some "sha:base1", none, true⟩

/-- A build with caching enabled whose chain holds the base layer. -/
def sampleBuild : Build :=
  { build_id := "b1", base_image := "fedora:29", target_image := "Tgt",
    builder_name := "buildah", cache_tasks := true, debug := true,
    verbose := false, state := BuildState.inProgress,
    build_start_time := some 0, build_finish_time := none,
    log_lines := [], layers := [sampleBaseLayer] }

/-- The same build with caching disabled. -/
def sampleBuildNoCache : Build := { sampleBuild with cache_tasks := false }

/-- A database holding `sampleBuild` and one cache entry keyed by
(content "install-pkg", base layer "sha:base1"). -/
def sampleDb : Database :=
  { builds := [("b1", sampleBuild)],
    layer_cache := [(("install-pkg", some "sha:base1"), "sha:layerA")] }

/-- A database holding only `sampleBuildNoCache`, same cache entry. -/
def sampleDbNoCache : Database :=
  { builds := [("b1", sampleBuildNoCache)],
    layer_cache := [(("install-pkg", some "sha:base1"), "sha:layerA")] }

/-- C8: `Application.build` on a playbook path that is not a file raises
the resource-not-found error immediately: the returned database is the
untouched input (the Build record was never persisted) and the event
trace is empty (no external Builder call was made). -/
theorem build_missing_playbook_fails_fast (app : Application)
    (playbook_path : String) (db : Database) (build : Build)
    (build_volumes : List String) (env : BuilderEnv)
    (runner_result : Except String (List String))
    (start_time finish_time : Nat) :
    Application.build app playbook_path false db build build_volumes env
        runner_result start_time finish_time =
      ([], db,
        Except.error (BuildError.resourceNotFound
          ("No such file or directory: " ++ playbook_path))) := rfl

/-- C4: `Application.maybe_load_from_cache` returns `none` (Python
`None`) with no Builder call whenever the build's caching flag is
disabled, regardless of cache contents; with caching enabled it looks up
(content, top layer id): on a hit it issues the Builder's
working-container swap and returns the cached layer id, on a miss it
returns `none` without any Builder call. -/
theorem maybe_load_from_cache_spec (db : Database) (content : String)
    (build_id : String) (build : Build)
    (hb : db.get_build build_id = some build) :
    (build.cache_tasks = false →
        Application.maybe_load_from_cache db content build_id =
          some (none, [])) ∧
    (build.cache_tasks = true →
      (∀ lid, db.get_cached_layer content build.get_top_layer_id = some lid →
          Application.maybe_load_from_cache db content build_id =
            some (some lid, [Event.swapWorkingContainer])) ∧
      (db.get_cached_layer content build.get_top_layer_id = none →
          Application.maybe_load_from_cache db content build_id =
            some (none, []))) := by
  refine ⟨fun hoff => ?_, fun hon => ⟨fun lid hhit => ?_, fun hmiss => ?_⟩⟩
  · simp [Application.maybe_load_from_cache, hb, hoff]
  · simp [Application.maybe_load_from_cache, Application.get_layer, hb, hon, hhit]
  · simp [Application.maybe_load_from_cache, Application.get_layer, hb, hon, hmiss]

/-- Witness for C4: on concrete data, the disabled-flag, hit and miss
branches of `maybe_load_from_cache` behave as the theorem states. -/
theorem maybe_load_from_cache_spec_witness :
    sampleDbNoCache.get_build "b1" = some sampleBuildNoCache ∧
    sampleDb.get_build "b1" = some sampleBuild ∧
    Application.maybe_load_from_cache sampleDbNoCache "install-pkg" "b1" =
      some (none, []) ∧
    Application.maybe_load_from_cache sampleDb "install-pkg" "b1" =
      some (some "sha:layerA", [Event.swapWorkingContainer]) ∧
    Application.maybe_load_from_cache sampleDb "other-task" "b1" =
      some (none, []) := by
  refine ⟨rfl, rfl, ?_, ?_, ?_⟩
  · exact (maybe_load_from_cache_spec sampleDbNoCache "install-pkg" "b1"
      sampleBuildNoCache rfl).1 rfl
  · exact ((maybe_load_from_cache_spec sampleDb "install-pkg" "b1"
      sampleBuild rfl).2 rfl).1 "sha:layerA" rfl
  · exact ((maybe_load_from_cache_spec sampleDb "other-task" "b1"
      sampleBuild rfl).2 rfl).2 rfl

/-- C3: `Application.record_progress` appends one layer to the effective
build (the one re-fetched by `build_id` when given, else the one passed
in): the appended layer's base layer id is that build's current top
layer id, its content is the given fingerprint, and its layer id and
`cached` flag are the given id with `cached = false`, or the re-derived
cache lookup with `cached = true` when the given id is absent; the
updated build is persisted and the base layer id is returned. -/
theorem record_progress_spec (db : Database) (build : Build)
    (content : String) (layer_id : Option String)
    (build_id : Option String) (b : Build)
    (hb : (match build_id with
           | some bid => db.get_build bid
           | none => some build) = some b) :
    ∃ b2,
      Application.record_progress db build content layer_id build_id =
        some (db.record_build b2, b2, b.get_top_layer_id) ∧
      (∃ l : Layer,
        b2.layers = b.layers ++ [l] ∧
        l.base_image_id = b.get_top_layer_id ∧
        l.content = some content ∧
        (layer_id = none →
          l.layer_id = db.get_cached_layer content b.get_top_layer_id ∧
          l.cached = true) ∧
        (∀ lid, layer_id = some lid →
          l.layer_id = some lid ∧ l.cached = false)) := by
  cases build_id with
  | none =>
      change some build = some b at hb
      injection hb with hbe
      subst hbe
      cases layer_id with
      | none =>
          refine ⟨build.record_layer (some content)
              (db.get_cached_layer content build.get_top_layer_id)
              build.get_top_layer_id true, rfl,
            ⟨some content,
              db.get_cached_layer content build.get_top_layer_id,
              build.get_top_layer_id, true⟩, rfl, rfl, rfl, ?_, ?_⟩
          · intro _
            exact ⟨rfl, rfl⟩
          · intro lid hlid
            cases hlid
      | some lid =>
          refine ⟨build.record_layer (some content) (some lid)
              build.get_top_layer_id false, rfl,
            ⟨some content, some lid, build.get_top_layer_id, false⟩,
            rfl, rfl, rfl, ?_, ?_⟩
          · intro hnone
            cases hnone
          · intro lid2 hlid
            injection hlid with h2
            subst h2
            exact ⟨rfl, rfl⟩
  | some bid =>
      change db.get_build bid = some b at hb
      cases layer_id with
      | none =>
          refine ⟨b.record_layer (some content)
              (db.get_cached_layer content b.get_top_layer_id)
              b.get_top_layer_id true, ?_,
            ⟨some content,
              db.get_cached_layer content b.get_top_layer_id,
              b.get_top_layer_id, true⟩, rfl, rfl, rfl, ?_, ?_⟩
          · simp [Application.record_progress, Application.get_layer, hb]
          · intro _
            exact ⟨rfl, rfl⟩
          · intro lid hlid
            cases hlid
      | some lid =>
          refine ⟨b.record_layer (some content) (some lid)
              b.get_top_layer_id false, ?_,
            ⟨some content, some lid, b.get_top_layer_id, false⟩,
            rfl, rfl, rfl, ?_, ?_⟩
          · simp [Application.record_progress, Application.get_layer, hb]
          · intro hnone
            cases hnone
          · intro lid2 hlid
            injection hlid with h2
            subst h2
            exact ⟨rfl, rfl⟩

/-- Witness for C3: recording a fresh (non-cached) layer id on the
sample build persists an updated build and returns the base layer id. -/
theorem record_progress_spec_witness :
    sampleDb.get_build "b1" = some sampleBuild ∧
    (∃ b2, Application.record_progress sampleDb sampleBuild "install-pkg"
          (some "sha:layerB") (some "b1") =
        some (sampleDb.record_build b2, b2, sampleBuild.get_top_layer_id)) := by
  refine ⟨rfl, ?_⟩
  obtain ⟨b2, heq, _⟩ := record_progress_spec sampleDb sampleBuild
    "install-pkg" (some "sha:layerB") (some "b1") sampleBuild rfl
  exact ⟨b2, heq⟩

/-- C10: when `record_progress` is called with an absent layer id and
the cache has no entry for (content, current top layer id), no error is
raised: a layer with absent layer id, marked `cached = true`, is
appended and the build is persisted in that state. -/
theorem record_progress_cache_miss_no_error (db : Database) (build : Build)
    (content : String)
    (hmiss : db.get_cached_layer content build.get_top_layer_id = none) :
    Application.record_progress db build content none none =
      some (db.record_build
              (build.record_layer (some content) none
                build.get_top_layer_id true),
            build.record_layer (some content) none
              build.get_top_layer_id true,
            build.get_top_layer_id) := by
  simp [Application.record_progress, Application.get_layer, hmiss]

/-- Witness for C10: a concrete cache-miss call with an absent layer id
returns normally with an absent-id cached layer appended. -/
theorem record_progress_cache_miss_no_error_witness :
    sampleDb.get_cached_layer "other-task" sampleBuild.get_top_layer_id =
      none ∧
    Application.record_progress sampleDb sampleBuild "other-task" none none =
      some (sampleDb.record_build
              (sampleBuild.record_layer (some "other-task") none
                sampleBuild.get_top_layer_id true),
            sampleBuild.record_layer (some "other-task") none
              sampleBuild.get_top_layer_id true,
            sampleBuild.get_top_layer_id) :=
  ⟨rfl, record_progress_cache_miss_no_error sampleDb sampleBuild
    "other-task" rfl⟩

/-- A second build sharing the top layer of `sampleBuild`, and a
database holding both with an empty layer cache, for the
commit-then-reuse witnesses. -/
def sampleBuild2 : Build := { sampleBuild with build_id := "b2" }

/-- Database with two builds sharing a top layer and an empty cache. -/
def sampleDb2 : Database :=
  { builds := [("b1", sampleBuild), ("b2", sampleBuild2)], layer_cache := [] }

/-- C2: `Application.cache_task_result` with caching disabled returns
Python `None` without committing anything (empty Builder trace,
database untouched); with caching enabled and a fresh cache key it
commits the container under the lowercase image name derived from the
target image and the timestamp, records the new layer id as a
non-cached layer on the persisted build, inserts the new layer id in
the cache under (content, base layer id) and returns the image name. -/
theorem cache_task_result_spec (db : Database) (content : String)
    (build_id : String) (timestamp : String) (commit_ret : String)
    (build : Build) (hb : db.get_build build_id = some build) :
    (build.cache_tasks = false →
        Application.cache_task_result db content build_id timestamp
            commit_ret = Except.ok (db, none, [])) ∧
    (build.cache_tasks = true →
     db.get_cached_layer content build.get_top_layer_id = none →
     ∃ db3,
       Application.cache_task_result db content build_id timestamp
           commit_ret =
         Except.ok (db3,
           some ((build.target_image ++ "-" ++ timestamp).toLower),
           [Event.commit ((build.target_image ++ "-" ++ timestamp).toLower)]) ∧
       db3.get_cached_layer content build.get_top_layer_id =
         some commit_ret ∧
       db3.get_build build.build_id =
         some (build.record_layer (some content) (some commit_ret)
           build.get_top_layer_id false)) := by
  constructor
  · intro hoff
    simp [Application.cache_task_result, hb, hoff]
  · intro hon hmiss
    refine ⟨{ builds := (build.build_id,
                build.record_layer (some content) (some commit_ret)
                  build.get_top_layer_id false) :: db.builds,
              layer_cache := ((content, build.get_top_layer_id), commit_ret)
                :: db.layer_cache }, ?_, ?_, ?_⟩
    · have hmiss2 : db.layer_cache.find?
          (fun e => e.1.1 == content && e.1.2 == build.get_top_layer_id) =
            none := by
        simpa [Database.get_cached_layer] using hmiss
      simp [Application.cache_task_result, hb, hon,
        Application.record_progress, Application.get_layer,
        Database.save_layer, Database.record_build, Build.record_layer,
        Database.get_cached_layer, hmiss2]
    · simp [Database.get_cached_layer]
    · simp [Database.get_build, Build.record_layer]

/-- Witness for C2: committing task content "task-a" on the sample
database (empty cache, caching enabled) produces the lowercase
timestamped image name, the Builder commit event, the cache entry and
the persisted non-cached layer. -/
theorem cache_task_result_spec_witness :
    sampleDb2.get_build "b1" = some sampleBuild ∧
    sampleBuild.cache_tasks = true ∧
    sampleDb2.get_cached_layer "task-a" sampleBuild.get_top_layer_id =
      none ∧
    (∃ db3,
      Application.cache_task_result sampleDb2 "task-a" "b1" "20260101-000000"
          "sha:layerC" =
        Except.ok (db3,
          some ((sampleBuild.target_image ++ "-" ++ "20260101-000000").toLower),
          [Event.commit
            ((sampleBuild.target_image ++ "-" ++ "20260101-000000").toLower)]) ∧
      db3.get_cached_layer "task-a" sampleBuild.get_top_layer_id =
        some "sha:layerC" ∧
      db3.get_build sampleBuild.build_id =
        some (sampleBuild.record_layer (some "task-a") (some "sha:layerC")
          sampleBuild.get_top_layer_id false)) :=
  ⟨rfl, rfl, rfl,
    (cache_task_result_spec sampleDb2 "task-a" "b1" "20260101-000000"
      "sha:layerC" sampleBuild rfl).2 rfl rfl⟩

/-- Persisting a build record leaves the layer cache untouched. -/
theorem get_cached_layer_record_build (db : Database) (b : Build)
    (content : String) (base : Option String) :
    (db.record_build b).get_cached_layer content base =
      db.get_cached_layer content base := rfl

/-- C1: after a successful `cache_task_result` for (content, build) with
caching enabled, `maybe_load_from_cache` with the same content on any
build whose top layer equals the top layer at commit time (and whose
caching flag is enabled) returns exactly the layer id the Builder commit
produced, issuing the working-container swap. -/
theorem commit_then_reuse_round_trip (db : Database) (content : String)
    (build_id : String) (timestamp : String) (commit_ret : String)
    (build : Build) (db3 : Database) (img : Option String) (tr : List Event)
    (hb : db.get_build build_id = some build)
    (hcache1 : build.cache_tasks = true)
    (hctr : Application.cache_task_result db content build_id timestamp
        commit_ret = Except.ok (db3, img, tr))
    (build_id2 : String) (build2 : Build)
    (hb2 : db3.get_build build_id2 = some build2)
    (hcache2 : build2.cache_tasks = true)
    (htop : build2.get_top_layer_id = build.get_top_layer_id) :
    Application.maybe_load_from_cache db3 content build_id2 =
      some (some commit_ret, [Event.swapWorkingContainer]) := by
  have hkey : db3.get_cached_layer content build.get_top_layer_id =
      some commit_ret := by
    rcases hc : db.get_cached_layer content build.get_top_layer_id with
      _ | existing
    · simp [Application.cache_task_result, hb, hcache1,
        Application.record_progress, Application.get_layer,
        Database.save_layer, get_cached_layer_record_build, hc] at hctr
      rcases hctr with ⟨hdb3, _, _⟩
      subst hdb3
      simp [Database.get_cached_layer, Database.record_build]
    · simp [Application.cache_task_result, hb, hcache1,
        Application.record_progress, Application.get_layer,
        Database.save_layer, get_cached_layer_record_build, hc] at hctr
      by_cases he : existing = commit_ret
      · subst he
        simp at hctr
        rcases hctr with ⟨hdb3, _, _⟩
        subst hdb3
        rw [get_cached_layer_record_build]
        exact hc
      · simp [he] at hctr
  simp [Application.maybe_load_from_cache, hb2, hcache2,
    Application.get_layer, htop, hkey]

/-- Witness for C1: a concrete commit of content "task-a" on build "b1"
followed by `maybe_load_from_cache` of the same content on build "b2"
(same top layer "sha:base1") returns the committed layer id. -/
theorem commit_then_reuse_round_trip_witness :
    (∃ db3 img tr,
      Application.cache_task_result sampleDb2 "task-a" "b1" "20260101-000000"
          "sha:layerC" = Except.ok (db3, img, tr) ∧
      db3.get_build "b2" = some sampleBuild2 ∧
      Application.maybe_load_from_cache db3 "task-a" "b2" =
        some (some "sha:layerC", [Event.swapWorkingContainer])) := by
  refine ⟨{ builds := ("b1",
              sampleBuild.record_layer (some "task-a") (some "sha:layerC")
                (some "sha:base1") false) :: sampleDb2.builds,
            layer_cache := [(("task-a", some "sha:base1"), "sha:layerC")] },
          some ((sampleBuild.target_image ++ "-" ++ "20260101-000000").toLower),
          [Event.commit
            ((sampleBuild.target_image ++ "-" ++ "20260101-000000").toLower)],
          ?_, rfl, ?_⟩
  · rfl
  · exact commit_then_reuse_round_trip sampleDb2 "task-a" "b1"
      "20260101-000000" "sha:layerC" sampleBuild _ _ _ rfl rfl rfl
      "b2" sampleBuild2 rfl rfl rfl

/-- The builds whose layer chains arise from the two `record_layer`
call sites in `api.py`: the synthetic base layer recorded on a build
with an empty chain (line 66: content `None`, base `None`,
`cached=True`), followed by any number of `record_progress` appends
(line 185: the base layer id is always the build's current top layer
id).  A new `Build` starts with an empty chain (spec section 3: index 0
of the append-only chain is always the base image). -/
inductive ReachableBuild : Build → Prop
  | base (b : Build) (base_image_id : String) (hb : b.layers = []) :
      ReachableBuild (b.record_layer none (some base_image_id) none true)
  | step (b : Build) (content : String) (layer_id : Option String)
      (cached : Bool) (h : ReachableBuild b) :
      ReachableBuild (b.record_layer (some content) layer_id
        b.get_top_layer_id cached)

/-- A reachable build's layer chain is never empty. -/
theorem reachable_layers_ne_nil (b : Build) (h : ReachableBuild b) :
    b.layers ≠ [] := by
  induction h with
  | base b0 base_image_id hb => simp [Build.record_layer]
  | step b0 content layer_id cached h ih => simp [Build.record_layer]

/-- A reachable build's layer chain is linked: each layer's base layer
id is the layer id of its predecessor. -/
theorem reachable_chain_linked (b : Build) (h : ReachableBuild b) :
    List.Chain' (fun x y : Layer => y.base_image_id = x.layer_id)
      b.layers := by
  induction h with
  | base b0 base_image_id hb =>
      simp [Build.record_layer, hb]
  | step b0 content layer_id cached h ih =>
      have happ : (b0.record_layer (some content) layer_id
          b0.get_top_layer_id cached).layers =
          b0.layers ++ [⟨some content, layer_id,
            b0.get_top_layer_id, cached⟩] := rfl
      rw [happ]
      refine List.Chain'.append ih (List.chain'_singleton _) ?_
      intro x hx y hy
      simp only [List.head?_cons, Option.mem_def, Option.some.injEq] at hy
      subst hy
      have hx2 : b0.layers.getLast? = some x := Option.mem_def.mp hx
      simp [Build.get_top_layer_id, hx2]

/-- The first layer of a reachable build's chain is the synthetic base
layer: no base layer id, no content fingerprint, `cached = true`. -/
theorem reachable_head_is_base (b : Build) (h : ReachableBuild b) :
    ∀ first rest, b.layers = first :: rest →
      first.base_image_id = none ∧ first.content = none ∧
      first.cached = true := by
  induction h with
  | base b0 base_image_id hb =>
      intro first rest heq
      rw [show (b0.record_layer none (some base_image_id) none true).layers =
        b0.layers ++ [⟨none, some base_image_id, none, true⟩] from rfl,
        hb] at heq
      simp only [List.nil_append, List.cons.injEq] at heq
      rw [← heq.1]
      exact ⟨rfl, rfl, rfl⟩
  | step b0 content layer_id cached h ih =>
      intro first rest heq
      have hne := reachable_layers_ne_nil b0 h
      rw [show (b0.record_layer (some content) layer_id
        b0.get_top_layer_id cached).layers =
        b0.layers ++ [⟨some content, layer_id,
          b0.get_top_layer_id, cached⟩] from rfl] at heq
      rcases hl : b0.layers with _ | ⟨f, r⟩
      · exact absurd hl hne
      · rw [hl, List.cons_append, List.cons.injEq] at heq
        rw [← heq.1]
        exact ih f r hl

/-- C5: the ancestry invariant of every reachable layer chain: the
first layer has a null base layer id and null content fingerprint and
is recorded with `cached = true`, and every later layer's base layer id
equals the previous layer's layer id. -/
theorem layer_chain_ancestry_invariant (b : Build) (h : ReachableBuild b) :
    (∀ first rest, b.layers = first :: rest →
      first.base_image_id = none ∧ first.content = none ∧
      first.cached = true) ∧
    (∀ i : Nat, ∀ hi : i + 1 < b.layers.length,
      (b.layers.get ⟨i + 1, hi⟩).base_image_id =
        (b.layers.get ⟨i, Nat.lt_of_succ_lt hi⟩).layer_id) := by
  refine ⟨reachable_head_is_base b h, ?_⟩
  intro i hi
  have hch := List.chain'_iff_get.mp (reachable_chain_linked b h) i
    (by omega)
  exact hch

/-- A fresh build: the sample build before any layer is recorded. -/
def sampleFresh : Build := { sampleBuild with layers := [] }

/-- The fresh build after the base layer is recorded (`api.py` line 66). -/
def sampleBase : Build :=
  sampleFresh.record_layer none (some "sha:base1") none true

/-- The base build after one `record_progress` append. -/
def sampleChained : Build :=
  sampleBase.record_layer (some "task-a") (some "sha:layerA")
    sampleBase.get_top_layer_id true

/-- Witness for C5: a concrete two-layer reachable chain satisfies the
ancestry invariant. -/
theorem layer_chain_ancestry_invariant_witness :
    ReachableBuild sampleChained ∧
    ((∀ first rest, sampleChained.layers = first :: rest →
        first.base_image_id = none ∧ first.content = none ∧
        first.cached = true) ∧
      (∀ i : Nat, ∀ hi : i + 1 < sampleChained.layers.length,
        (sampleChained.layers.get ⟨i + 1, hi⟩).base_image_id =
          (sampleChained.layers.get
            ⟨i, Nat.lt_of_succ_lt hi⟩).layer_id)) := by
  have hreach : ReachableBuild sampleChained :=
    ReachableBuild.step sampleBase "task-a" (some "sha:layerA") true
      (ReachableBuild.base sampleFresh "sha:base1" rfl)
  exact ⟨hreach, layer_chain_ancestry_invariant sampleChained hreach⟩

/-- C6: when the external Task Engine raises a task failure (carrying
partial output), `Application.build` persists the build as FAILED with
the finish timestamp and the pre-failure output split into log lines,
commits the partial container under `<targetImage>-failed`, and
re-raises the original failure unchanged. -/
theorem build_task_failure_bookkeeping (app : Application)
    (playbook_path : String) (db : Database) (build : Build)
    (build_volumes : List String) (env : BuilderEnv) (ex_output : String)
    (start_time finish_time : Nat) (base_image_id : String)
    (present : Bool) (py : String) (commit_id : String)
    (h1 : env.get_image_id build.base_image = Except.ok base_image_id)
    (h2 : env.is_base_image_present = Except.ok present)
    (h3 : env.pull = Except.ok ())
    (h4 : env.find_python_interpreter = Except.ok py)
    (h5 : env.create build_volumes = Except.ok ())
    (h6 : env.commit (build.target_image ++ "-failed") =
      Except.ok commit_id) :
    (Application.build app playbook_path true db build build_volumes env
        (Except.error ex_output) start_time finish_time).2.2 =
      Except.error (BuildError.taskFailure ex_output) ∧
    Event.commit (build.target_image ++ "-failed") ∈
      (Application.build app playbook_path true db build build_volumes env
        (Except.error ex_output) start_time finish_time).1 ∧
    (∃ bfin,
      (Application.build app playbook_path true db build build_volumes env
          (Except.error ex_output) start_time finish_time).2.1.get_build
        build.build_id = some bfin ∧
      bfin.state = BuildState.failed ∧
      bfin.build_finish_time = some finish_time ∧
      bfin.log_lines = ex_output.splitOn "\n") := by
  cases present with
  | false =>
      refine ⟨?_, ?_, ?_⟩ <;>
        simp [Application.build, h1, h2, h3, h4, h5, h6,
          Database.record_build_state, Database.record_build_fetch,
          Database.record_build, Database.get_build, Build.record_layer]
  | true =>
      refine ⟨?_, ?_, ?_⟩ <;>
        simp [Application.build, h1, h2, h3, h4, h5, h6,
          Database.record_build_state, Database.record_build_fetch,
          Database.record_build, Database.get_build, Build.record_layer]

/-- The application object used in concrete runs. -/
def sampleApp : Application := { debug := false, verbose := false }

/-- A Builder environment where every external call succeeds. -/
def sampleEnv : BuilderEnv :=
  { get_image_id := fun _ => Except.ok "sha:base1",
    is_base_image_present := Except.ok true,
    pull := Except.ok (),
    find_python_interpreter := Except.ok "/usr/bin/python3",
    create := fun _ => Except.ok (),
    commit := fun _ => Except.ok "sha:committed" }

/-- Witness for C6: a concrete failed run re-raises the task failure,
commits the `-failed` image and persists the FAILED build with the
split partial output. -/
theorem build_task_failure_bookkeeping_witness :
    sampleEnv.get_image_id sampleBuild.base_image =
      Except.ok "sha:base1" ∧
    sampleEnv.commit (sampleBuild.target_image ++ "-failed") =
      Except.ok "sha:committed" ∧
    ((Application.build sampleApp "pb.yml" true sampleDb sampleBuild []
        sampleEnv (Except.error "line1\nline2") 0 1).2.2 =
      Except.error (BuildError.taskFailure "line1\nline2") ∧
    Event.commit (sampleBuild.target_image ++ "-failed") ∈
      (Application.build sampleApp "pb.yml" true sampleDb sampleBuild []
        sampleEnv (Except.error "line1\nline2") 0 1).1 ∧
    (∃ bfin,
      (Application.build sampleApp "pb.yml" true sampleDb sampleBuild []
          sampleEnv (Except.error "line1\nline2") 0 1).2.1.get_build
        sampleBuild.build_id = some bfin ∧
      bfin.state = BuildState.failed ∧
      bfin.build_finish_time = some 1 ∧
      bfin.log_lines = "line1\nline2".splitOn "\n")) :=
  ⟨rfl, rfl,
    build_task_failure_bookkeeping sampleApp "pb.yml" sampleDb sampleBuild
      [] sampleEnv "line1\nline2" 0 1 "sha:base1" true "/usr/bin/python3"
      "sha:committed" rfl rfl rfl rfl rfl rfl⟩

/-- A Builder environment whose base image is absent and whose `pull`
call fails; everything else succeeds. -/
def sampleEnvPullFails : BuilderEnv :=
  { sampleEnv with is_base_image_present := Except.ok false,
                   pull := Except.error "pull failed" }

/-- Counterexample for C7: a run in which the external Builder's `pull`
raises exits `Application.build` with a failure, and the Builder trace
contains no `clean` call — the acquisition steps before the guarded
task-execution region (`api.py` lines 63-77) are outside the
`try/finally` that guarantees `builder.clean()`. -/
theorem builder_clean_not_on_every_path :
    (Application.build sampleApp "pb.yml" true sampleDb sampleBuild []
        sampleEnvPullFails (Except.ok []) 0 1).2.2 =
      Except.error (BuildError.builderError "pull failed") ∧
    Event.clean ∉
      (Application.build sampleApp "pb.yml" true sampleDb sampleBuild []
        sampleEnvPullFails (Except.ok []) 0 1).1 := by
  constructor
  · rfl
  · decide

/-- C7 (amended): once the working container has been created — that
is, once every acquisition step up to `builder.create` has succeeded —
`builder.clean()` runs on every exit path of the guarded task-execution
region: on success, on task failure and on commit failure alike. -/
theorem builder_clean_after_container_created (app : Application)
    (playbook_path : String) (db : Database) (build : Build)
    (build_volumes : List String) (env : BuilderEnv)
    (runner_result : Except String (List String))
    (start_time finish_time : Nat) (base_image_id : String)
    (present : Bool) (py : String)
    (h1 : env.get_image_id build.base_image = Except.ok base_image_id)
    (h2 : env.is_base_image_present = Except.ok present)
    (h3 : env.pull = Except.ok ())
    (h4 : env.find_python_interpreter = Except.ok py)
    (h5 : env.create build_volumes = Except.ok ()) :
    Event.clean ∈
      (Application.build app playbook_path true db build build_volumes env
        runner_result start_time finish_time).1 := by
  cases runner_result with
  | error ex_output =>
      rcases hcm : env.commit (build.target_image ++ "-failed") with e | v <;>
        cases present <;>
        simp [Application.build, h1, h2, h3, h4, h5, hcm,
          Database.record_build_state, Database.record_build_fetch,
          Database.record_build, Database.get_build, Build.record_layer]
  | ok output =>
      rcases hcm : env.commit build.target_image with e | v <;>
        cases present <;>
        simp [Application.build, h1, h2, h3, h4, h5, hcm,
          Database.record_build_state, Database.record_build_fetch,
          Database.record_build, Database.get_build, Build.record_layer]

/-- Witness for C7 (amended): in a concrete successful run the trace
contains the `clean` call. -/
theorem builder_clean_after_container_created_witness :
    sampleEnv.create [] = Except.ok () ∧
    Event.clean ∈
      (Application.build sampleApp "pb.yml" true sampleDb sampleBuild []
        sampleEnv (Except.ok ["all good"]) 0 1).1 :=
  ⟨rfl, builder_clean_after_container_created sampleApp "pb.yml" sampleDb
    sampleBuild [] sampleEnv (Except.ok ["all good"]) 0 1 "sha:base1"
    true "/usr/bin/python3" rfl rfl rfl rfl rfl⟩

/-- Counterexample for C9: `Application.build` overwrites the build's
`debug` flag with the application's own (`api.py` lines 58-59): a build
created with `debug = true` is persisted by a non-debug application
with `debug = false`. -/
theorem build_overwrites_debug_flag :
    sampleBuild.debug = true ∧
    ((Application.build sampleApp "pb.yml" true sampleDb sampleBuild []
        sampleEnv (Except.ok ["done"]) 0 1).2.1.get_build
      "b1").map Build.debug = some false := ⟨rfl, rfl⟩

/-- C9 (amended): the configuration fields base image reference, target
image name, builder backend name and the caching flag are never
modified: the build persisted by a completed `Application.build` run
carries the original values, and `record_progress` preserves every
configuration field of the build it records; the `debug` and `verbose`
flags, by contrast, are overwritten at the start of `build()` with the
Application's own flags. -/
theorem build_config_immutable_except_flags (app : Application)
    (playbook_path : String) (db : Database) (build : Build)
    (build_volumes : List String) (env : BuilderEnv)
    (runner_result : Except String (List String))
    (start_time finish_time : Nat) (base_image_id : String)
    (present : Bool) (py : String)
    (h1 : env.get_image_id build.base_image = Except.ok base_image_id)
    (h2 : env.is_base_image_present = Except.ok present)
    (h3 : env.pull = Except.ok ())
    (h4 : env.find_python_interpreter = Except.ok py)
    (h5 : env.create build_volumes = Except.ok ()) :
    (∃ bfin,
      (Application.build app playbook_path true db build build_volumes env
          runner_result start_time finish_time).2.1.get_build
        build.build_id = some bfin ∧
      bfin.base_image = build.base_image ∧
      bfin.target_image = build.target_image ∧
      bfin.builder_name = build.builder_name ∧
      bfin.cache_tasks = build.cache_tasks ∧
      bfin.debug = app.debug ∧
      bfin.verbose = app.verbose) ∧
    (∀ (db0 : Database) (b0 : Build) (content : String)
        (layer_id : Option String) (db2 : Database) (b2 : Build)
        (base : Option String),
      Application.record_progress db0 b0 content layer_id none =
          some (db2, b2, base) →
      b2.base_image = b0.base_image ∧ b2.target_image = b0.target_image ∧
      b2.builder_name = b0.builder_name ∧
      b2.cache_tasks = b0.cache_tasks ∧
      b2.debug = b0.debug ∧ b2.verbose = b0.verbose) := by
  constructor
  · cases runner_result with
    | error ex_output =>
        rcases hcm : env.commit (build.target_image ++ "-failed")
            with e | v <;>
          cases present <;>
          simp [Application.build, h1, h2, h3, h4, h5, hcm,
            Database.record_build_state, Database.record_build_fetch,
            Database.record_build, Database.get_build, Build.record_layer]
    | ok output =>
        rcases hcm : env.commit build.target_image with e | v <;>
          cases present <;>
          simp [Application.build, h1, h2, h3, h4, h5, hcm,
            Database.record_build_state, Database.record_build_fetch,
            Database.record_build, Database.get_build, Build.record_layer]
  · intro db0 b0 content layer_id db2 b2 base h
    cases layer_id with
    | none =>
        simp only [Application.record_progress, Application.get_layer,
          Option.some.injEq, Prod.mk.injEq] at h
        rcases h with ⟨_, hb2, _⟩
        rw [← hb2]
        exact ⟨rfl, rfl, rfl, rfl, rfl, rfl⟩
    | some lid =>
        simp only [Application.record_progress, Application.get_layer,
          Option.some.injEq, Prod.mk.injEq] at h
        rcases h with ⟨_, hb2, _⟩
        rw [← hb2]
        exact ⟨rfl, rfl, rfl, rfl, rfl, rfl⟩

/-- Witness for C9 (amended): a concrete successful run preserves the
four configuration fields and stamps the application's flags. -/
theorem build_config_immutable_except_flags_witness :
    sampleEnv.get_image_id sampleBuild.base_image =
      Except.ok "sha:base1" ∧
    ((∃ bfin,
      (Application.build sampleApp "pb.yml" true sampleDb sampleBuild []
          sampleEnv (Except.ok ["done"]) 0 1).2.1.get_build
        sampleBuild.build_id = some bfin ∧
      bfin.base_image = sampleBuild.base_image ∧
      bfin.target_image = sampleBuild.target_image ∧
      bfin.builder_name = sampleBuild.builder_name ∧
      bfin.cache_tasks = sampleBuild.cache_tasks ∧
      bfin.debug = sampleApp.debug ∧
      bfin.verbose = sampleApp.verbose) ∧
    (∀ (db0 : Database) (b0 : Build) (content : String)
        (layer_id : Option String) (db2 : Database) (b2 : Build)
        (base : Option String),
      Application.record_progress db0 b0 content layer_id none =
          some (db2, b2, base) →
      b2.base_image = b0.base_image ∧ b2.target_image = b0.target_image ∧
      b2.builder_name = b0.builder_name ∧
      b2.cache_tasks = b0.cache_tasks ∧
      b2.debug = b0.debug ∧ b2.verbose = b0.verbose)) :=
  ⟨rfl, build_config_immutable_except_flags sampleApp "pb.yml" sampleDb
    sampleBuild [] sampleEnv (Except.ok ["done"]) 0 1 "sha:base1" true
    "/usr/bin/python3" rfl rfl rfl rfl rfl⟩
